import Mathlib

/-!
Verification of the `pinn` repository verification script
(`src/verification/verify_notes_load.py`).

The script is a linear sequence of browser-automation calls.  We embed it
as a pure function from an environment -- which of the fallible steps
raises, and whether the onboarding text is visible on the page -- to the
list of observable actions the run completes, together with an outcome
(normal return of the unit value, modelling the Python `None`, or a
propagated exception).  An action enters the trace only when the
corresponding call completes; a raising call contributes no action and
aborts the run at that point, exactly as an uncaught Python exception
does.
-/

namespace Pinn

/-- Observable actions the script can perform, in the order of the calls
in `verify_notes_load.py`: page navigation, the fixed sleep, the
screenshot write, the visibility query, a console print, and the final
`browser.close()` of the main entry point. -/
inductive Action where
  | goto (url : String)
  | sleep (seconds : Nat)
  | screenshot (path : String)
  | visibilityCheck (text : String)
  | printMsg (msg : String)
  | browserClose
deriving DecidableEq, Repr

/-- The hardcoded URL passed to `page.goto`. -/
def appUrl : String := "http://localhost:5173"

/-- The hardcoded output path passed to `page.screenshot`. -/
def screenshotPath : String := "/home/jules/verification/initial_load.png"

/-- The text fragment queried by `page.get_by_text(...).is_visible()`. -/
def onboardingText : String := "Welcome to Pinn"

/-- The message printed when the onboarding text is visible. -/
def onboardingMsg : String := "Onboarding visible"

/-- The message printed when the onboarding text is not visible. -/
def notOnboardingMsg : String := "Not on onboarding?"

/-- Exceptions that the fallible steps of `verify_notes_load` can raise. -/
inductive PyError where
  | gotoError
  | sleepError
  | screenshotError
  | visibilityError
deriving DecidableEq, Repr

/-- The environment of one run of `verify_notes_load`: whether each
fallible call raises, and the boolean the visibility query returns when
it does not raise. -/
structure Env where
  gotoRaises : Bool
  sleepRaises : Bool
  screenshotRaises : Bool
  visibilityRaises : Bool
  welcomeVisible : Bool
deriving DecidableEq, Repr

/-- Embedding of `verify_notes_load(page)`: navigate to the fixed URL,
sleep two seconds, write the screenshot to the fixed path, query
visibility of the onboarding text, and print one of the two fixed
messages.  The function returns the trace of completed actions and the
outcome: `Except.ok ()` models the Python function returning `None`,
`Except.error e` models an uncaught exception raised at step `e`. -/
def verify_notes_load (env : Env) : List Action × Except PyError Unit :=
  if env.gotoRaises then ([], Except.error PyError.gotoError)
  else
    let t1 := [Action.goto appUrl]
    if env.sleepRaises then (t1, Except.error PyError.sleepError)
    else
      let t2 := t1 ++ [Action.sleep 2]
      if env.screenshotRaises then (t2, Except.error PyError.screenshotError)
      else
        let t3 := t2 ++ [Action.screenshot screenshotPath]
        if env.visibilityRaises then (t3, Except.error PyError.visibilityError)
        else
          let t4 := t3 ++ [Action.visibilityCheck onboardingText]
          if env.welcomeVisible then
            (t4 ++ [Action.printMsg onboardingMsg], Except.ok ())
          else
            (t4 ++ [Action.printMsg notOnboardingMsg], Except.ok ())

/-- The console messages printed along a trace. -/
def printedMessages (t : List Action) : List String :=
  t.filterMap fun a =>
    match a with
    | Action.printMsg m => some m
    | _ => none

/-- The filesystem path an action writes to, if any: of all the actions
the script performs, only the screenshot call writes a file. -/
def writesFile : Action → Option String
  | Action.screenshot p => some p
  | _ => none

/-- The filesystem writes performed along a trace. -/
def fsWrites (t : List Action) : List String :=
  t.filterMap writesFile

/-- Exceptions the main entry point can propagate: a failure of
`p.chromium.launch`, a failure of `browser.new_page`, or an exception
re-raised out of the try/finally block around `verify_notes_load`. -/
inductive MainError where
  | launchError
  | newPageError
  | bodyError (e : PyError)
deriving DecidableEq, Repr

/-- The environment of one run of the `__main__` block: whether the
browser launch raises, whether page creation raises, and the
environment of the body. -/
structure MainEnv where
  launchRaises : Bool
  newPageRaises : Bool
  pageEnv : Env
deriving DecidableEq, Repr

/-- Embedding of the `__main__` block: launch the browser, create a
page, run `verify_notes_load(page)` inside `try`, and call
`browser.close()` in the `finally` block.  The `try` block starts only
after `browser.new_page()` has succeeded, so a launch or page-creation
failure produces no `browserClose` action; a body exception is
re-raised after the close. -/
def script_main (m : MainEnv) : List Action × Except MainError Unit :=
  if m.launchRaises then ([], Except.error MainError.launchError)
  else if m.newPageRaises then ([], Except.error MainError.newPageError)
  else
    let r := verify_notes_load m.pageEnv
    (r.1 ++ [Action.browserClose],
      match r.2 with
      | Except.ok _ => Except.ok ()
      | Except.error e => Except.error (MainError.bodyError e))

/-- Modelled from the spec: the client-side state of a browsing
context.  The web application (not part of this repository) keeps a
single configuration key in client-side storage. -/
structure ClientContext where
  configKeyPresent : Bool
deriving DecidableEq, Repr

/-- Modelled from the spec: a fresh browsing context has empty
client-side storage, so the configuration key is absent. -/
def freshContext : ClientContext := ⟨false⟩

/-- Modelled from the spec: the application shows the onboarding
screen, which contains the text "Welcome to Pinn", exactly when the
client-side configuration key is absent. -/
def onboardingShown (c : ClientContext) : Bool := !c.configKeyPresent

/-- Normal-form lemma: when none of the four fallible steps raises, the
run of `verify_notes_load` is the fixed five-action sequence, with the
printed message determined by the visibility boolean, and the function
returns normally. -/
theorem verify_ok_trace (env : Env) (hg : env.gotoRaises = false)
    (hs : env.sleepRaises = false) (hc : env.screenshotRaises = false)
    (hv : env.visibilityRaises = false) :
    verify_notes_load env =
      ([Action.goto appUrl, Action.sleep 2, Action.screenshot screenshotPath,
        Action.visibilityCheck onboardingText,
        Action.printMsg
          (if env.welcomeVisible then onboardingMsg else notOnboardingMsg)],
        Except.ok ()) := by
  cases hw : env.welcomeVisible <;>
    simp [verify_notes_load, hg, hs, hc, hv, hw]

/-- Error-form lemma: when `verify_notes_load` raises, its trace
contains no print action. -/
theorem verify_error_no_print (env : Env) (e : PyError)
    (he : (verify_notes_load env).2 = Except.error e) :
    printedMessages (verify_notes_load env).1 = [] := by
  unfold verify_notes_load at he ⊢
  split_ifs at he ⊢ <;> simp_all [printedMessages]

/-- C1: in every run in which no step raises, `verify_notes_load`
performs exactly, in order: the navigation to `http://localhost:5173`,
the two-second pause, the screenshot write to
`/home/jules/verification/initial_load.png`, a single visibility check
for "Welcome to Pinn", and one print of one of the two fixed messages;
no other observable action is taken, and the function returns
normally. -/
theorem C1_fixed_sequence (env : Env) (hg : env.gotoRaises = false)
    (hs : env.sleepRaises = false) (hc : env.screenshotRaises = false)
    (hv : env.visibilityRaises = false) :
    verify_notes_load env =
      ([Action.goto "http://localhost:5173", Action.sleep 2,
        Action.screenshot "/home/jules/verification/initial_load.png",
        Action.visibilityCheck "Welcome to Pinn",
        Action.printMsg
          (if env.welcomeVisible then onboardingMsg else notOnboardingMsg)],
        Except.ok ()) :=
  verify_ok_trace env hg hs hc hv

/-- Witness for C1: a concrete raise-free run with the text visible
produces exactly the fixed five-action sequence. -/
theorem C1_witness :
    verify_notes_load ⟨false, false, false, false, true⟩ =
      ([Action.goto "http://localhost:5173", Action.sleep 2,
        Action.screenshot "/home/jules/verification/initial_load.png",
        Action.visibilityCheck "Welcome to Pinn",
        Action.printMsg "Onboarding visible"],
        Except.ok ()) := by
  have h := C1_fixed_sequence ⟨false, false, false, false, true⟩ rfl rfl rfl rfl
  simpa [onboardingMsg] using h

/-- C2: in every run that reaches the visibility check, the script
prints "Onboarding visible" when the text is visible and
"Not on onboarding?" otherwise, and the printed message is the same in
any second such run whose visibility query returns the same boolean. -/
theorem C2_message_matches_visibility (env : Env) (hg : env.gotoRaises = false)
    (hs : env.sleepRaises = false) (hc : env.screenshotRaises = false)
    (hv : env.visibilityRaises = false) :
    printedMessages (verify_notes_load env).1 =
      [if env.welcomeVisible then "Onboarding visible"
        else "Not on onboarding?"] ∧
    ∀ env2 : Env, env2.gotoRaises = false → env2.sleepRaises = false →
      env2.screenshotRaises = false → env2.visibilityRaises = false →
      env2.welcomeVisible = env.welcomeVisible →
      printedMessages (verify_notes_load env2).1 =
        printedMessages (verify_notes_load env).1 := by
  constructor
  · rw [verify_ok_trace env hg hs hc hv]
    cases env.welcomeVisible <;>
      simp [printedMessages, onboardingMsg, notOnboardingMsg]
  · intro env2 hg2 hs2 hc2 hv2 hw2
    rw [verify_ok_trace env hg hs hc hv, verify_ok_trace env2 hg2 hs2 hc2 hv2,
      hw2]

/-- Witness for C2: in a concrete raise-free run with the text absent,
the single printed message is "Not on onboarding?". -/
theorem C2_witness :
    printedMessages (verify_notes_load ⟨false, false, false, false, false⟩).1 =
      ["Not on onboarding?"] := by
  have h := C2_message_matches_visibility ⟨false, false, false, false, false⟩
    rfl rfl rfl rfl
  simpa using h.1

/-- C3: in every run of the main entry point in which launch and page
creation succeed, the trace is the body trace followed by
`browser.close()`, so the close is invoked both when the body returns
normally and when it raises. -/
theorem C3_close_always_invoked (m : MainEnv) (hl : m.launchRaises = false)
    (hn : m.newPageRaises = false) :
    (script_main m).1 =
      (verify_notes_load m.pageEnv).1 ++ [Action.browserClose] := by
  simp [script_main, hl, hn]

/-- Witness for C3: in a concrete run whose body raises at navigation,
the trace still ends with the `browser.close()` action. -/
theorem C3_witness :
    (script_main ⟨false, false, ⟨true, false, false, false, false⟩⟩).1 =
      (verify_notes_load ⟨true, false, false, false, false⟩).1 ++
        [Action.browserClose] :=
  C3_close_always_invoked ⟨false, false, ⟨true, false, false, false, false⟩⟩
    rfl rfl

/-- C4: every exception raised by a step of `verify_notes_load`
propagates out of the main entry point after the cleanup block, and no
step error is converted to a printed message. -/
theorem C4_errors_propagate (m : MainEnv) (e : PyError)
    (hl : m.launchRaises = false) (hn : m.newPageRaises = false)
    (he : (verify_notes_load m.pageEnv).2 = Except.error e) :
    (script_main m).2 = Except.error (MainError.bodyError e) ∧
    printedMessages (script_main m).1 = [] := by
  constructor
  · simp [script_main, hl, hn, he]
  · have hbody := verify_error_no_print m.pageEnv e he
    simp [script_main, hl, hn, printedMessages, List.filterMap_append]
    simpa [printedMessages] using hbody

/-- Witness for C4: in a concrete run whose screenshot call raises, the
main entry point propagates the screenshot error and prints nothing. -/
theorem C4_witness :
    (script_main ⟨false, false, ⟨false, false, true, false, false⟩⟩).2 =
      Except.error (MainError.bodyError PyError.screenshotError) ∧
    printedMessages
      (script_main ⟨false, false, ⟨false, false, true, false, false⟩⟩).1 =
        [] :=
  C4_errors_propagate ⟨false, false, ⟨false, false, true, false, false⟩⟩
    PyError.screenshotError rfl rfl rfl

/-- C5: in every run in which the navigation call raises, no filesystem
write occurs; and in any run whatsoever, a completed screenshot action
implies the navigation did not raise. -/
theorem C5_no_screenshot_without_navigation (env : Env)
    (hg : env.gotoRaises = true) :
    fsWrites (verify_notes_load env).1 = [] ∧
    ∀ env2 : Env,
      Action.screenshot screenshotPath ∈ (verify_notes_load env2).1 →
      env2.gotoRaises = false := by
  constructor
  · simp [verify_notes_load, hg, fsWrites]
  · intro env2 hmem
    by_contra hne
    have hg2 : env2.gotoRaises = true := by
      cases h : env2.gotoRaises
      · exact absurd h hne
      · rfl
    simp [verify_notes_load, hg2] at hmem

/-- Witness for C5: a concrete run whose navigation raises performs no
filesystem write. -/
theorem C5_witness :
    fsWrites (verify_notes_load ⟨true, false, false, false, true⟩).1 = [] :=
  (C5_no_screenshot_without_navigation ⟨true, false, false, false, true⟩
    rfl).1

/-- C6 counterexample: the claim as stated fails on the code: in the
run in which navigation succeeds but the two-second sleep raises, the
script performs no filesystem write at all, even though navigation
succeeded. -/
theorem C6_counterexample :
    (⟨false, true, false, false, false⟩ : Env).gotoRaises = false ∧
    fsWrites (verify_notes_load ⟨false, true, false, false, false⟩).1 = [] :=
  ⟨rfl, rfl⟩

/-- C6 (amended): in every run in which navigation, the rendering wait
and the screenshot call all succeed, exactly one file is written, at
the fixed path, regardless of the outcome of the visibility check; the
script performs no other filesystem write. -/
theorem C6_exactly_one_write (env : Env) (hg : env.gotoRaises = false)
    (hs : env.sleepRaises = false) (hc : env.screenshotRaises = false) :
    fsWrites (verify_notes_load env).1 =
      ["/home/jules/verification/initial_load.png"] := by
  cases hv : env.visibilityRaises <;> cases hw : env.welcomeVisible <;>
    simp [verify_notes_load, hg, hs, hc, hv, hw, fsWrites, writesFile,
      screenshotPath]

/-- Witness for C6: in a concrete run in which the visibility check
raises after a successful screenshot call, the single filesystem write
at the fixed path is still present. -/
theorem C6_witness :
    fsWrites (verify_notes_load ⟨false, false, false, true, false⟩).1 =
      ["/home/jules/verification/initial_load.png"] :=
  C6_exactly_one_write ⟨false, false, false, true, false⟩ rfl rfl rfl

/-- C7: under the spec-modelled precondition that the page is opened in
a fresh browsing context and the application shows onboarding exactly
when the configuration key is absent, the visibility boolean is true,
so a raise-free run prints "Onboarding visible" and the
"Not on onboarding?" branch is never taken. -/
theorem C7_else_branch_unreachable (env : Env)
    (hfresh : env.welcomeVisible = onboardingShown freshContext)
    (hg : env.gotoRaises = false) (hs : env.sleepRaises = false)
    (hc : env.screenshotRaises = false) (hv : env.visibilityRaises = false) :
    printedMessages (verify_notes_load env).1 = ["Onboarding visible"] ∧
    Action.printMsg "Not on onboarding?" ∉ (verify_notes_load env).1 := by
  have hw : env.welcomeVisible = true := by
    simpa [onboardingShown, freshContext] using hfresh
  rw [verify_ok_trace env hg hs hc hv, hw]
  constructor
  · simp [printedMessages, onboardingMsg]
  · simp [onboardingMsg, appUrl, screenshotPath, onboardingText,
      notOnboardingMsg]

/-- Witness for C7: a concrete raise-free fresh-context run prints only
"Onboarding visible" and never the alternate message. -/
theorem C7_witness :
    printedMessages (verify_notes_load ⟨false, false, false, false, true⟩).1 =
      ["Onboarding visible"] ∧
    Action.printMsg "Not on onboarding?" ∉
      (verify_notes_load ⟨false, false, false, false, true⟩).1 :=
  C7_else_branch_unreachable ⟨false, false, false, false, true⟩ rfl rfl rfl
    rfl rfl

/-- C8: in every run in which `verify_notes_load` returns normally,
exactly one message is printed, it is one of the two fixed messages,
and the function returns the unit value (the Python `None`). -/
theorem C8_exactly_one_message (env : Env)
    (h : (verify_notes_load env).2 = Except.ok ()) :
    (printedMessages (verify_notes_load env).1).length = 1 ∧
    (printedMessages (verify_notes_load env).1 = ["Onboarding visible"] ∨
      printedMessages (verify_notes_load env).1 = ["Not on onboarding?"]) := by
  unfold verify_notes_load at h ⊢
  split_ifs at h ⊢ <;>
    simp_all [printedMessages, onboardingMsg, notOnboardingMsg]

/-- Witness for C8: a concrete normally-returning run prints exactly
one of the two fixed messages. -/
theorem C8_witness :
    (printedMessages
        (verify_notes_load ⟨false, false, false, false, false⟩).1).length =
      1 ∧
    (printedMessages (verify_notes_load ⟨false, false, false, false, false⟩).1 =
        ["Onboarding visible"] ∨
      printedMessages
          (verify_notes_load ⟨false, false, false, false, false⟩).1 =
        ["Not on onboarding?"]) :=
  C8_exactly_one_message ⟨false, false, false, false, false⟩ rfl

/-- C9: if the browser launch succeeds but page creation raises, the
cleanup block never runs: no `browser.close()` action occurs, and the
page-creation error propagates. -/
theorem C9_no_close_on_page_creation_failure (m : MainEnv)
    (hl : m.launchRaises = false) (hn : m.newPageRaises = true) :
    Action.browserClose ∉ (script_main m).1 ∧
    (script_main m).2 = Except.error MainError.newPageError := by
  constructor <;> simp [script_main, hl, hn]

/-- Witness for C9: a concrete run whose page creation raises performs
no `browser.close()` and propagates the page-creation error. -/
theorem C9_witness :
    Action.browserClose ∉
      (script_main ⟨false, true, ⟨false, false, false, false, true⟩⟩).1 ∧
    (script_main ⟨false, true, ⟨false, false, false, false, true⟩⟩).2 =
      Except.error MainError.newPageError :=
  C9_no_close_on_page_creation_failure
    ⟨false, true, ⟨false, false, false, false, true⟩⟩ rfl rfl

/-- C10: `verify_notes_load` is deterministic in its observable
outputs: two raise-free runs whose visibility queries return the same
boolean produce identical traces and outcomes; no other part of the
environment influences the result. -/
theorem C10_deterministic (e1 e2 : Env)
    (h1g : e1.gotoRaises = false) (h1s : e1.sleepRaises = false)
    (h1c : e1.screenshotRaises = false) (h1v : e1.visibilityRaises = false)
    (h2g : e2.gotoRaises = false) (h2s : e2.sleepRaises = false)
    (h2c : e2.screenshotRaises = false) (h2v : e2.visibilityRaises = false)
    (hsame : e1.welcomeVisible = e2.welcomeVisible) :
    verify_notes_load e1 = verify_notes_load e2 := by
  rw [verify_ok_trace e1 h1g h1s h1c h1v, verify_ok_trace e2 h2g h2s h2c h2v,
    hsame]

/-- Witness for C10: two concrete raise-free runs agreeing on the
visibility boolean produce identical results. -/
theorem C10_witness :
    verify_notes_load ⟨false, false, false, false, true⟩ =
      verify_notes_load ⟨false, false, false, false, true⟩ :=
  C10_deterministic ⟨false, false, false, false, true⟩
    ⟨false, false, false, false, true⟩ rfl rfl rfl rfl rfl rfl rfl rfl rfl

end Pinn
